import Mathlib

/-!
Verification of the 2D terrain generator (`src/main.rs`) against its
natural-language specification.  The program is shallowly embedded over
exact rational arithmetic: the `f32`/`f64` fields become `ℚ`-valued
functions of the integer grid coordinates, the per-cell loop bodies become
pure functions, and the fixed 2048×2048 grid keeps its concrete size.
-/

namespace TerrainGen

/-- Grid dimensions, from `const IMAGE_SIZE: [i32; 2] = [2048, 2048]`. -/
def IMAGE_SIZE : Fin 2 → Int := ![2048, 2048]

/-- Row-major linear index, from `get_id_from_pos`. -/
def get_id_from_pos (x y : Int) : Int := x + IMAGE_SIZE 0 * y

/-- The twelve biome tags, from `enum Biomes`. -/
inductive Biomes where
  | Grass
  | DeepWater
  | Water
  | Dirt
  | Sand
  | WetSand
  | DarkForest
  | HighDarkForest
  | LightForest
  | Mountain
  | HighMountain
  | Snow
deriving DecidableEq, Repr

/-- An RGB color, from `sdl2::pixels::Color` as used via `Color::RGB`. -/
structure Color where
  r : Nat
  g : Nat
  b : Nat
deriving DecidableEq, Repr

/-- Constructor mirroring `Color::RGB(r, g, b)`. -/
def Color.RGB (r g b : Nat) : Color := ⟨r, g, b⟩

/-- Color table, from `get_biome_color`. -/
def get_biome_color : Biomes → Color
  | .Grass => Color.RGB 120 157 80
  | .Water => Color.RGB 9 82 198
  | .DeepWater => Color.RGB 0 62 178
  | .Dirt => Color.RGB 114 98 49
  | .Sand => Color.RGB 194 178 128
  | .WetSand => Color.RGB 164 148 99
  | .DarkForest => Color.RGB 60 97 20
  | .HighDarkForest => Color.RGB 40 77 0
  | .LightForest => Color.RGB 85 122 45
  | .Mountain => Color.RGB 140 142 123
  | .HighMountain => Color.RGB 160 162 143
  | .Snow => Color.RGB 235 235 235

/-- Conversion to an `[u8; 3]` triple, from `color_to_array`. -/
def color_to_array (c : Color) : List Nat := [c.r, c.g, c.b]

/-- The biome `match` expression in `main` (lines 200–213): a chain of
guarded arms over `(height, moisture)`, evaluated in order with
first-match-wins semantics, embedded as nested conditionals. -/
def classify (height moisture : ℚ) : Biomes :=
  if height < 0.39 then .DeepWater
  else if height < 0.42 then .Water
  else if height < 0.46 ∧ moisture < 0.57 then .Sand
  else if height < 0.47 ∧ moisture < 0.6 then .WetSand
  else if height < 0.47 ∧ moisture ≥ 0.6 then .Dirt
  else if height > 0.54 ∧ moisture < 0.43 ∧ height < 0.62 then .Grass
  else if height < 0.62 ∧ moisture ≥ 0.58 then .HighDarkForest
  else if height < 0.62 ∧ moisture ≥ 0.49 then .DarkForest
  else if height ≥ 0.79 then .Snow
  else if height ≥ 0.74 then .HighMountain
  else if height ≥ 0.68 ∧ moisture ≥ 0.10 then .Mountain
  else .LightForest

/-- Modelled from the spec, section 4.5: the classifier as an explicit
ORDERED list of guarded rules.  Each entry pairs a boolean guard over
`(elevation, moisture)` with the biome of that rule; rule 12 is the
unconditional catch-all. -/
def specRules : List ((ℚ × ℚ → Bool) × Biomes) :=
  [ (fun em => decide (em.1 < 0.39), .DeepWater)
  , (fun em => decide (em.1 < 0.42), .Water)
  , (fun em => decide (em.1 < 0.46 ∧ em.2 < 0.57), .Sand)
  , (fun em => decide (em.1 < 0.47 ∧ em.2 < 0.6), .WetSand)
  , (fun em => decide (em.1 < 0.47 ∧ em.2 ≥ 0.6), .Dirt)
  , (fun em => decide (em.1 > 0.54 ∧ em.2 < 0.43 ∧ em.1 < 0.62), .Grass)
  , (fun em => decide (em.1 < 0.62 ∧ em.2 ≥ 0.58), .HighDarkForest)
  , (fun em => decide (em.1 < 0.62 ∧ em.2 ≥ 0.49), .DarkForest)
  , (fun em => decide (em.1 ≥ 0.79), .Snow)
  , (fun em => decide (em.1 ≥ 0.74), .HighMountain)
  , (fun em => decide (em.1 ≥ 0.68 ∧ em.2 ≥ 0.10), .Mountain)
  , (fun _ => true, .LightForest) ]

/-- First-match-wins evaluation of an ordered rule list. -/
def firstMatch : List ((ℚ × ℚ → Bool) × Biomes) → ℚ × ℚ → Option Biomes
  | [], _ => none
  | r :: rs, em => if r.1 em then some r.2 else firstMatch rs em

/-- Modelled from the spec: the reference classifier of section 4.5,
first matching rule of the ordered list (none if no rule matched). -/
def classifySpec (elevation moisture : ℚ) : Option Biomes :=
  firstMatch specRules (elevation, moisture)

/-- Per-cell elevation compositing, from the `height_map` update in
`generate_maps`: scale the noise by 1.1, subtract 0.8 of the gradient,
then zero the cell if it went negative. -/
def composite_elevation (height_noise gradient : ℚ) : ℚ :=
  let v := height_noise * 1.1 - gradient * 0.8
  if v < 0 then 0 else v

/-- Per-cell moisture compositing, from the `biome_map` update in
`generate_maps`: subtract `(0.1 - gradient) * 0.4` from the noise, then
zero the cell if it went negative. -/
def composite_moisture (moisture_noise gradient : ℚ) : ℚ :=
  let v := moisture_noise - (0.1 - gradient) * 0.4
  if v < 0 then 0 else v

/-- Folding of the x coordinate toward the grid center, from the binding of
`a` in `generate_gradient`: `if x > IMAGE_SIZE[0] / 2 then IMAGE_SIZE[0] - x else x`. -/
def gradFoldX (x : Int) : Int :=
  if x > IMAGE_SIZE 0 / 2 then IMAGE_SIZE 0 - x else x

/-- Folding of the y coordinate toward the grid center, from the binding of
`b` in `generate_gradient`. -/
def gradFoldY (y : Int) : Int :=
  if y > IMAGE_SIZE 1 / 2 then IMAGE_SIZE 1 - y else y

/-- The pre-subtraction `color_value` of `generate_gradient`: take the
smaller folded coordinate, normalize by half the grid width, invert and
square. -/
def gradPre (x y : Int) : ℚ :=
  let smaller : ℚ := ((min (gradFoldX x) (gradFoldY y) : Int) : ℚ)
  let color_value := smaller / ((IMAGE_SIZE 0 : ℚ) / 2)
  let inverted := 1 - color_value
  inverted * inverted

/-- Per-cell value written by `generate_gradient`: the clamp `match` applied
to `color_value - 0.1` (values above 1 become 1, below 0 become 0). -/
def generate_gradient (x y : Int) : ℚ :=
  let v := gradPre x y - 0.1
  if v > 1 then 1 else if v < 0 then 0 else v

/-- Loop state of `sum_octaves`: the four mutable locals
`max_amp`, `amp`, `freq`, `noise`, in that order. -/
structure OctState where
  max_amp : ℚ
  amp : ℚ
  freq : ℚ
  noise : ℚ
deriving Repr

/-- One iteration of the `sum_octaves` loop body: sample the noise at the
current frequency weighted by the current amplitude, accumulate the
amplitude into `max_amp`, decay the amplitude by `persistence`, double the
frequency.  Fields in constructor order: `max_amp`, `amp`, `freq`, `noise`. -/
def octStep (noise_fn : ℚ → ℚ → ℚ) (px py persistence : ℚ) (st : OctState) : OctState :=
  ⟨st.max_amp + st.amp, st.amp * persistence, st.freq * 2,
   st.noise + noise_fn (px * st.freq) (py * st.freq) * st.amp⟩

/-- State after `n` iterations of the `sum_octaves` loop, starting from
`max_amp = 0`, `amp = 1`, `freq = scale`, `noise = 0`. -/
def octState (noise_fn : ℚ → ℚ → ℚ) (px py persistence scale : ℚ) : Nat → OctState
  | 0 => ⟨0, 1, scale, 0⟩
  | n + 1 => octStep noise_fn px py persistence (octState noise_fn px py persistence scale n)

/-- Fractal octave summation, from `sum_octaves`: run the loop
`num_iterations` times, then normalize by `max_amp` and rescale into the
requested output range. -/
def sum_octaves (num_iterations : Nat) (point : Int × Int) (persistence scale low high : ℚ)
    (noise_fn : ℚ → ℚ → ℚ) : ℚ :=
  let st := octState noise_fn (point.1 : ℚ) (point.2 : ℚ) persistence scale num_iterations
  (st.noise / st.max_amp) * (high - low) / 2 + (high + low) / 2

/-- Per-cell value of `generate_noise_map`: octave summation with the fixed
parameters N=16, persistence=0.5, low=0, high=1, over a noise evaluator
constructed from the seed.  The external noise library
(`OpenSimplexNoise::new(Some(seed))` with `eval_2d`) is abstracted as a
seed-indexed evaluator `mkNoise`, per the spec's black-box contract. -/
def generate_noise_map (mkNoise : Int → ℚ → ℚ → ℚ) (seed : Int) (scale : ℚ)
    (x y : Int) : ℚ :=
  sum_octaves 16 (x, y) 0.5 scale 0 1 (mkNoise seed)

/-- A concrete noise function bounded by 1 in absolute value, used to probe
`sum_octaves` with a negative persistence. -/
def spikeNoise (x _y : ℚ) : ℚ :=
  if x = 1 then 1 else if x = 2 then -1 else 0

end TerrainGen

namespace TerrainGen

/-- C1: the biome classifier is total — for every (elevation, moisture)
pair of rationals the ordered rule list of section 4.5 produces exactly
one biome (the catch-all guarantees a match), and the code's match
expression agrees with that first-match-wins reference evaluation. -/
theorem classify_total_eq_spec (e m : ℚ) :
    classifySpec e m = some (classify e m) := by
  simp only [classifySpec, specRules, firstMatch, decide_eq_true_eq, if_true,
    classify, apply_ite some]

/-- C2 counterexample: at elevation 0.60 and moisture 0.05 the classifier
does NOT fall through to LightForest — rule 6 (Grass) matches first. -/
theorem classify_06_005_not_lightforest :
    classify 0.6 0.05 = Biomes.Grass ∧ Biomes.Grass ≠ Biomes.LightForest := by
  constructor
  · norm_num [classify]
  · intro h
    exact Biomes.noConfusion h

/-- C2 (amended): for elevation 0.60 and moisture 0.05 the classifier
resolves via rule 6 (elevation > 0.54, moisture < 0.43, elevation < 0.62)
and returns Grass, whose color is RGB [120,157,80]. -/
theorem classify_end_to_end_06_005 :
    classify 0.6 0.05 = Biomes.Grass ∧
    color_to_array (get_biome_color (classify 0.6 0.05)) = [120, 157, 80] := by
  have h : classify 0.6 0.05 = Biomes.Grass := by norm_num [classify]
  exact ⟨h, by rw [h]; rfl⟩

/-- C3 counterexample: at elevation 0.50 and moisture 0.50 the classifier
does not resolve to Sand — rule 3 requires elevation < 0.46. -/
theorem classify_05_05_not_sand :
    classify 0.5 0.5 = Biomes.DarkForest ∧ Biomes.DarkForest ≠ Biomes.Sand := by
  constructor
  · norm_num [classify]
  · intro h
    exact Biomes.noConfusion h

/-- C3 (amended): for elevation 0.50 and moisture 0.50 the classifier
resolves via rule 8 (elevation < 0.62, moisture ≥ 0.49) under
first-match-wins evaluation — rule 3 fails because 0.50 is not below the
0.46 elevation threshold — and returns DarkForest; the ordered spec rule
list agrees. -/
theorem classify_05_05_darkforest :
    classify 0.5 0.5 = Biomes.DarkForest ∧
    firstMatch specRules (0.5, 0.5) = some Biomes.DarkForest := by
  constructor
  · norm_num [classify]
  · norm_num [firstMatch, specRules]

/-- C4: the Field Compositor computes per cell
elevation = max 0 (height_noise * 1.1 - gradient * 0.8) and
moisture = max 0 (moisture_noise - (0.1 - gradient) * 0.4); only negative
values are floored to 0, no upper clamp exists, and both outputs can
exceed 1. -/
theorem composite_fields_spec (h g m : ℚ) :
    composite_elevation h g = max 0 (h * 1.1 - g * 0.8) ∧
    composite_moisture m g = max 0 (m - (0.1 - g) * 0.4) ∧
    (∃ hn gn : ℚ, composite_elevation hn gn > 1) ∧
    (∃ mn gn : ℚ, composite_moisture mn gn > 1) := by
  refine ⟨?_, ?_, ⟨2, 0, by norm_num [composite_elevation]⟩,
    ⟨2, 0, by norm_num [composite_moisture]⟩⟩
  · simp only [composite_elevation]
    split_ifs with hv
    · exact (max_eq_left hv.le).symm
    · exact (max_eq_right (not_lt.mp hv)).symm
  · simp only [composite_moisture]
    split_ifs with hv
    · exact (max_eq_left hv.le).symm
    · exact (max_eq_right (not_lt.mp hv)).symm

lemma IMAGE_SIZE_zero : IMAGE_SIZE 0 = 2048 := rfl

lemma IMAGE_SIZE_one : IMAGE_SIZE 1 = 2048 := rfl

lemma gradFoldX_bounds (x : Int) (h1 : 0 ≤ x) (h2 : x < 2048) :
    0 ≤ gradFoldX x ∧ gradFoldX x ≤ 1024 := by
  simp only [gradFoldX, IMAGE_SIZE_zero]
  split_ifs <;> omega

lemma gradFoldY_bounds (y : Int) (h1 : 0 ≤ y) (h2 : y < 2048) :
    0 ≤ gradFoldY y ∧ gradFoldY y ≤ 1024 := by
  simp only [gradFoldY, IMAGE_SIZE_one]
  split_ifs <;> omega

lemma sq_falloff_le_one (m : ℚ) (h0 : 0 ≤ m) (h1 : m ≤ 1024) :
    (1 - m / 1024) * (1 - m / 1024) ≤ 1 := by
  have hu0 : 0 ≤ m / 1024 := by positivity
  have hu1 : m / 1024 ≤ 1 := by
    rw [div_le_one (by norm_num : (0:ℚ) < 1024)]
    exact h1
  nlinarith [mul_nonneg hu0 (sub_nonneg.mpr hu1)]

lemma gradPre_bounds (x y : Int) (hx1 : 0 ≤ x) (hx2 : x < 2048)
    (hy1 : 0 ≤ y) (hy2 : y < 2048) :
    0 ≤ gradPre x y ∧ gradPre x y ≤ 1 := by
  obtain ⟨ha0, ha1⟩ := gradFoldX_bounds x hx1 hx2
  obtain ⟨hb0, hb1⟩ := gradFoldY_bounds y hy1 hy2
  have hm0 : (0:ℚ) ≤ ((min (gradFoldX x) (gradFoldY y) : Int) : ℚ) := by
    exact_mod_cast le_min ha0 hb0
  have hm1 : ((min (gradFoldX x) (gradFoldY y) : Int) : ℚ) ≤ 1024 := by
    exact_mod_cast min_le_of_left_le ha1
  constructor
  · simp only [gradPre]
    exact mul_self_nonneg _
  · simp only [gradPre, IMAGE_SIZE_zero]
    push_cast
    push_cast at hm0 hm1
    norm_num
    exact sq_falloff_le_one _ hm0 hm1

/-- C10: every in-bounds gradient value lies in [0, 0.9]; the value before
clamping is at most 0.9, so the upper-clamp branch (mapping values above 1
to 1) is unreachable and the gradient never reaches 1. -/
theorem generate_gradient_range (x y : Int) (hx1 : 0 ≤ x) (hx2 : x < 2048)
    (hy1 : 0 ≤ y) (hy2 : y < 2048) :
    0 ≤ generate_gradient x y ∧ generate_gradient x y ≤ 0.9 ∧
    ¬ gradPre x y - 0.1 > 1 := by
  obtain ⟨hp0, hp1⟩ := gradPre_bounds x y hx1 hx2 hy1 hy2
  refine ⟨?_, ?_, by push_neg; linarith⟩
  · simp only [generate_gradient]
    split_ifs with h1 h2
    · norm_num
    · norm_num
    · exact not_lt.mp h2
  · simp only [generate_gradient]
    split_ifs with h1 h2
    · exfalso
      linarith
    · norm_num
    · norm_num
      linarith

/-- C10 witness: the range bound instantiated at the concrete cell (5, 7). -/
theorem generate_gradient_range_witness :
    0 ≤ generate_gradient 5 7 ∧ generate_gradient 5 7 ≤ 0.9 ∧
    ¬ gradPre 5 7 - 0.1 > 1 :=
  generate_gradient_range 5 7 (by norm_num) (by norm_num) (by norm_num) (by norm_num)

/-- C8: the gradient at the exact grid-center cell (1024, 1024) is 0 after
clamping, and at every in-bounds edge cell with x = 0 or y = 0 it equals
0.9 (the pre-subtraction maximum 1 squared, minus 0.1), which lies inside
the [0,1] clamp. -/
theorem generate_gradient_center_and_edges :
    generate_gradient 1024 1024 = 0 ∧
    (∀ x y : Int, 0 ≤ x → x < 2048 → 0 ≤ y → y < 2048 → x = 0 ∨ y = 0 →
      generate_gradient x y = 0.9) := by
  constructor
  · norm_num [generate_gradient, gradPre, gradFoldX, gradFoldY,
      IMAGE_SIZE_zero, IMAGE_SIZE_one]
  · rintro x y hx1 hx2 hy1 hy2 (rfl | rfl)
    · have hb := (gradFoldY_bounds y hy1 hy2).1
      have hfx : gradFoldX 0 = 0 := by
        simp [gradFoldX, IMAGE_SIZE_zero]
      have hmin : min (gradFoldX 0) (gradFoldY y) = 0 := by
        rw [hfx]
        exact min_eq_left hb
      simp only [generate_gradient, gradPre, hmin, IMAGE_SIZE_zero]
      norm_num
    · have ha := (gradFoldX_bounds x hx1 hx2).1
      have hfy : gradFoldY 0 = 0 := by
        simp [gradFoldY, IMAGE_SIZE_one]
      have hmin : min (gradFoldX x) (gradFoldY 0) = 0 := by
        rw [hfy]
        exact min_eq_right ha
      simp only [generate_gradient, gradPre, hmin, IMAGE_SIZE_zero]
      norm_num

/-- C8 witness: the center value, and the edge value at the concrete edge
cell (0, 5). -/
theorem generate_gradient_center_and_edges_witness :
    generate_gradient 1024 1024 = 0 ∧ generate_gradient 0 5 = 0.9 :=
  ⟨generate_gradient_center_and_edges.1,
   generate_gradient_center_and_edges.2 0 5 (by norm_num) (by norm_num)
     (by norm_num) (by norm_num) (Or.inl rfl)⟩

/-- C7 counterexample: the gradient is not symmetric under the mirroring
x ↦ W-1-x.  At (0, 1024) the folded distance is 0 and the value is 0.9,
but at (2047, 1024) the fold `IMAGE_SIZE[0] - x` gives distance 1 and the
value (1023/1024)² - 0.1. -/
theorem generate_gradient_mirror_counterexample :
    generate_gradient 0 1024 ≠ generate_gradient (2048 - 1 - 0) 1024 := by
  have h1 : generate_gradient 0 1024 = 9/10 := by
    norm_num [generate_gradient, gradPre, gradFoldX, gradFoldY,
      IMAGE_SIZE_zero, IMAGE_SIZE_one]
  have h2 : generate_gradient (2048 - 1 - 0) 1024 = 4708357/5242880 := by
    norm_num [generate_gradient, gradPre, gradFoldX, gradFoldY,
      IMAGE_SIZE_zero, IMAGE_SIZE_one]
  rw [h1, h2]
  norm_num

/-- C7 (amended): the gradient is symmetric under the mirrorings
x ↦ W-x and y ↦ H-y, for every cell with both the cell and its mirror
in bounds (1 ≤ x ≤ 2047, 1 ≤ y ≤ 2047). -/
theorem generate_gradient_mirror_sym (x y : Int) (hx1 : 1 ≤ x) (hx2 : x ≤ 2047)
    (hy1 : 1 ≤ y) (hy2 : y ≤ 2047) :
    generate_gradient x y = generate_gradient (2048 - x) y ∧
    generate_gradient x y = generate_gradient x (2048 - y) := by
  have hfx : gradFoldX (2048 - x) = gradFoldX x := by
    simp only [gradFoldX, IMAGE_SIZE_zero]
    split_ifs <;> omega
  have hfy : gradFoldY (2048 - y) = gradFoldY y := by
    simp only [gradFoldY, IMAGE_SIZE_one]
    split_ifs <;> omega
  constructor
  · simp only [generate_gradient, gradPre, hfx]
  · simp only [generate_gradient, gradPre, hfy]

/-- C7 witness: the mirror symmetry instantiated at the concrete cell (1, 5). -/
theorem generate_gradient_mirror_sym_witness :
    generate_gradient 1 5 = generate_gradient (2048 - 1) 5 ∧
    generate_gradient 1 5 = generate_gradient 1 (2048 - 5) :=
  generate_gradient_mirror_sym 1 5 (by norm_num) (by norm_num) (by norm_num)
    (by norm_num)

lemma octState_amp_nonneg (f : ℚ → ℚ → ℚ) (px py p scale : ℚ) (hp : 0 ≤ p) :
    ∀ n : Nat, 0 ≤ (octState f px py p scale n).amp := by
  intro n
  induction n with
  | zero => norm_num [octState]
  | succ n ih =>
      simp only [octState, octStep]
      exact mul_nonneg ih hp

lemma octStep_bound (f : ℚ → ℚ → ℚ) (px py p : ℚ) (st : OctState)
    (hp : 0 ≤ p) (ha : 0 ≤ st.amp) (hm : 0 ≤ st.max_amp)
    (hb : |st.noise| ≤ st.max_amp)
    (hf : ∀ a b : ℚ, -1 ≤ f a b ∧ f a b ≤ 1) :
    0 ≤ (octStep f px py p st).max_amp ∧
      |(octStep f px py p st).noise| ≤ (octStep f px py p st).max_amp := by
  have habs : |f (px * st.freq) (py * st.freq)| ≤ 1 :=
    abs_le.mpr (hf (px * st.freq) (py * st.freq))
  refine ⟨by simp only [octStep]; linarith, ?_⟩
  simp only [octStep]
  have h1 : |st.noise + f (px * st.freq) (py * st.freq) * st.amp|
      ≤ |st.noise| + |f (px * st.freq) (py * st.freq) * st.amp| := abs_add _ _
  have h2 : |f (px * st.freq) (py * st.freq) * st.amp|
      = |f (px * st.freq) (py * st.freq)| * |st.amp| := abs_mul _ _
  have h3 : |f (px * st.freq) (py * st.freq)| * |st.amp| ≤ 1 * st.amp := by
    rw [abs_of_nonneg ha]
    exact mul_le_mul_of_nonneg_right habs ha
  linarith

lemma octState_bound (f : ℚ → ℚ → ℚ) (px py p scale : ℚ) (hp : 0 ≤ p)
    (hf : ∀ a b : ℚ, -1 ≤ f a b ∧ f a b ≤ 1) :
    ∀ n : Nat, 0 ≤ (octState f px py p scale n).max_amp ∧
      |(octState f px py p scale n).noise| ≤ (octState f px py p scale n).max_amp := by
  intro n
  induction n with
  | zero =>
      refine ⟨by norm_num [octState], ?_⟩
      simp [octState]
  | succ n ih =>
      exact octStep_bound f px py p (octState f px py p scale n) hp
        (octState_amp_nonneg f px py p scale hp n) ih.1 ih.2 hf

lemma octState_max_amp_ge_one (f : ℚ → ℚ → ℚ) (px py p scale : ℚ) (hp : 0 ≤ p) :
    ∀ n : Nat, 1 ≤ n → 1 ≤ (octState f px py p scale n).max_amp := by
  intro n
  induction n with
  | zero =>
      intro h
      exact absurd h (by norm_num)
  | succ n ih =>
      intro _
      rcases Nat.eq_zero_or_pos n with rfl | hpos
      · norm_num [octState, octStep]
      · have h1 := ih hpos
        have ha := octState_amp_nonneg f px py p scale hp n
        simp only [octState, octStep]
        linarith

/-- C5 counterexample: the claim fails for a negative persistence.  With
N = 2, persistence = -0.5, scale = 1, bounds [0, 1] and the bounded noise
function spikeNoise, `sum_octaves` at the grid point (1, 0) returns 2,
outside [0, 1]. -/
theorem sum_octaves_range_counterexample :
    (∀ a b : ℚ, -1 ≤ spikeNoise a b ∧ spikeNoise a b ≤ 1) ∧
    (1:Nat) ≤ 2 ∧ (0:ℚ) ≤ 1 ∧
    sum_octaves 2 (1, 0) (-0.5) 1 0 1 spikeNoise = 2 ∧ ¬ ((2:ℚ) ≤ 1) := by
  refine ⟨?_, by norm_num, by norm_num, ?_, by norm_num⟩
  · intro a b
    unfold spikeNoise
    split_ifs <;> norm_num
  · show sum_octaves (0 + 1 + 1) (1, 0) (-0.5) 1 0 1 spikeNoise = 2
    norm_num [sum_octaves, octState, octStep, spikeNoise]

/-- C5 (amended): for every grid coordinate, iteration count N ≥ 1,
persistence p ≥ 0, scale s and bounds low ≤ high, if the noise function
always returns values in [-1, 1] then `sum_octaves` returns a value within
[low, high].  (The nonnegativity of the persistence is required: the
counterexample shows a negative persistence can leave the range.  In this
exact-arithmetic model every value is finite; with N ≥ 1 and p ≥ 0 the
divisor max_amp is at least 1, so the normalization is well-defined.) -/
theorem sum_octaves_in_range (N : Nat) (point : Int × Int) (p scale low high : ℚ)
    (f : ℚ → ℚ → ℚ) (hN : 1 ≤ N) (hp : 0 ≤ p) (hlh : low ≤ high)
    (hf : ∀ a b : ℚ, -1 ≤ f a b ∧ f a b ≤ 1) :
    low ≤ sum_octaves N point p scale low high f ∧
    sum_octaves N point p scale low high f ≤ high := by
  obtain ⟨hm0, hb⟩ := octState_bound f (point.1 : ℚ) (point.2 : ℚ) p scale hp hf N
  have h1 := octState_max_amp_ge_one f (point.1 : ℚ) (point.2 : ℚ) p scale hp N hN
  simp only [sum_octaves]
  set st := octState f (point.1 : ℚ) (point.2 : ℚ) p scale N with hst
  have hpos : (0:ℚ) < st.max_amp := by linarith
  have ht : |st.noise / st.max_amp| ≤ 1 := by
    rw [abs_div, abs_of_pos hpos]
    exact div_le_one_of_le₀ hb hpos.le
  obtain ⟨htl, htu⟩ := abs_le.mp ht
  constructor
  · nlinarith [mul_nonneg (by linarith : (0:ℚ) ≤ st.noise / st.max_amp + 1)
      (by linarith : (0:ℚ) ≤ high - low)]
  · nlinarith [mul_nonneg (by linarith : (0:ℚ) ≤ 1 - st.noise / st.max_amp)
      (by linarith : (0:ℚ) ≤ high - low)]

/-- C5 witness: the range bound instantiated at N = 1, persistence 0.5,
scale 1, bounds [0, 1] and the constant-zero noise function. -/
theorem sum_octaves_in_range_witness :
    (0:ℚ) ≤ sum_octaves 1 (0, 0) 0.5 1 0 1 (fun _ _ => 0) ∧
    sum_octaves 1 (0, 0) 0.5 1 0 1 (fun _ _ => 0) ≤ 1 :=
  sum_octaves_in_range 1 (0, 0) 0.5 1 0 1 (fun _ _ => 0) (by norm_num)
    (by norm_num) (by norm_num) (fun a b => by norm_num)

/-- C6: with zero iterations the `max_amp` accumulator of `sum_octaves`
stays 0, so the final normalization divides by zero; a nonzero `max_amp`
requires at least one iteration, so N ≥ 1 is a necessary precondition for
the division to be well-defined.  (Rational division by zero is modelled
as the total Lean division; the zero divisor itself is the defect.) -/
theorem sum_octaves_zero_iterations_div_zero (f : ℚ → ℚ → ℚ) (px py p scale : ℚ) :
    (octState f px py p scale 0).max_amp = 0 ∧
    ∀ n : Nat, (octState f px py p scale n).max_amp ≠ 0 → 1 ≤ n := by
  constructor
  · rfl
  · intro n hn
    rcases n with _ | n
    · exact absurd rfl hn
    · exact Nat.succ_le_succ (Nat.zero_le n)

/-- C6 witness: at zero iterations the divisor is 0, and one iteration,
whose divisor is 1 ≠ 0, satisfies the required bound N ≥ 1. -/
theorem sum_octaves_zero_iterations_div_zero_witness :
    (octState (fun _ _ => 0) 0 0 0.5 1 0).max_amp = 0 ∧ 1 ≤ 1 := by
  have h := sum_octaves_zero_iterations_div_zero (fun _ _ => 0) 0 0 0.5 1
  refine ⟨h.1, h.2 1 ?_⟩
  show (octState (fun _ _ => 0) 0 0 0.5 1 (0 + 1)).max_amp ≠ 0
  norm_num [octState, octStep]

/-- C9: `generate_noise_map` is deterministic in (seed, scale): with the
noise library abstracted as a seed-indexed evaluator, two invocations with
equal seeds and the same scale agree at every grid cell. -/
theorem generate_noise_map_deterministic (mkNoise : Int → ℚ → ℚ → ℚ)
    (seed1 seed2 : Int) (scale : ℚ) (x y : Int) (h : seed1 = seed2) :
    generate_noise_map mkNoise seed1 scale x y =
      generate_noise_map mkNoise seed2 scale x y := by
  rw [h]

/-- C9 witness: determinism instantiated at the zero evaluator, seed 42,
scale 0.004 and cell (3, 5). -/
theorem generate_noise_map_deterministic_witness :
    generate_noise_map (fun _ _ _ => 0) 42 0.004 3 5 =
      generate_noise_map (fun _ _ _ => 0) 42 0.004 3 5 :=
  generate_noise_map_deterministic (fun _ _ _ => 0) 42 42 0.004 3 5 rfl

end TerrainGen
